import Mathlib

/-!
Verification of the `nintang/canvas-oauth` bridge dispatcher.

The repository ships two variants of the same Cloudflare-style worker:
`src/src/index.js` (with an `escapeHtml` helper and an `/api/v1/` proxy
branch) and `src/unnamed/part_000` (no escaping, no proxy branch).  Both
export a single `fetch(request)` dispatcher.  We embed both dispatchers
shallowly: requests are records of the fields the handlers read, responses
are records of status, body and header list; the upstream Canvas host is a
parameter; an uncaught JavaScript exception is `Except.error ()`.
-/

/-- JavaScript `a || b` on a nullable string: `null` and `""` are falsy. -/
def jsOr (o : Option String) (d : String) : String :=
  match o with
  | none => d
  | some s => if s = "" then d else s

/-- JavaScript truthiness test `!x` for a nullable string: true when the
value is `null` or the empty string. -/
def falsyStr (o : Option String) : Bool :=
  match o with
  | none => true
  | some s => s == ""

/-- Contiguous-sublist test on character lists (the semantics of
JavaScript `String.prototype.includes`). -/
def hasSubList (hay needle : List Char) : Bool :=
  match hay with
  | [] => needle.isEmpty
  | _ :: t => needle.isPrefixOf hay || hasSubList t needle

/-- JavaScript `hay.includes(needle)` on strings. -/
def strIncludes (hay needle : String) : Bool :=
  hasSubList hay.data needle.data

/-- JavaScript `p.startsWith(pre)`. -/
def pathStartsWith (p pre : String) : Bool :=
  pre.data.isPrefixOf p.data

/-- One global single-character replacement, the semantics of
JavaScript `str.replace(/c/g, r)` for a single literal character `c`. -/
def replaceChar (c : Char) (r : List Char) : List Char → List Char
  | [] => []
  | x :: xs => (if x = c then r else [x]) ++ replaceChar c r xs

/-- The replacement chain of `escapeHtml` from `src/src/index.js`
(lines 21-24): `&`, then `"`, then `<`, then `>`. -/
def escapeHtmlL (s : List Char) : List Char :=
  replaceChar '>' "&gt;".data
    (replaceChar '<' "&lt;".data
      (replaceChar '"' "&quot;".data
        (replaceChar '&' "&amp;".data s)))

/-- `escapeHtml(str)` from `src/src/index.js` (lines 19-25): falsy input
(null or empty) yields `""`, otherwise the four global replacements. -/
def escapeHtml (s : Option String) : String :=
  match s with
  | none => ""
  | some s => if s = "" then "" else ⟨escapeHtmlL s.data⟩

/-- Modelled from the spec: HTML-decoding of an attribute value ("when
HTML-decoded, equal the original inputs").  Decodes the four entities
produced by `escapeHtml`; a bare `&` passes through. -/
def htmlDecodeL : List Char → List Char
  | [] => []
  | c :: rest =>
    if c = '&' then
      match rest with
      | 'a' :: 'm' :: 'p' :: ';' :: r => '&' :: htmlDecodeL r
      | 'q' :: 'u' :: 'o' :: 't' :: ';' :: r => '"' :: htmlDecodeL r
      | 'l' :: 't' :: ';' :: r => '<' :: htmlDecodeL r
      | 'g' :: 't' :: ';' :: r => '>' :: htmlDecodeL r
      | r => '&' :: htmlDecodeL r
    else c :: htmlDecodeL rest

/-- The unreserved set of ECMAScript `encodeURIComponent`:
ASCII alphanumerics and `- _ . ! ~ * ' ( )` (apostrophe is code point 39). -/
def isUnreservedURI (c : Char) : Bool :=
  c.isAlphanum || c = '-' || c = '_' || c = '.' || c = '!' || c = '~' ||
    c = '*' || c.toNat == 39 || c = '(' || c = ')'

/-- Uppercase hexadecimal digit for `d < 16`. -/
def hexDigit (d : Nat) : Char :=
  if d < 10 then Char.ofNat (48 + d) else Char.ofNat (55 + d)

/-- Value of a hexadecimal digit character, if any. -/
def hexVal (c : Char) : Option Nat :=
  if 48 ≤ c.toNat ∧ c.toNat ≤ 57 then some (c.toNat - 48)
  else if 65 ≤ c.toNat ∧ c.toNat ≤ 70 then some (c.toNat - 55)
  else if 97 ≤ c.toNat ∧ c.toNat ≤ 102 then some (c.toNat - 87)
  else none

/-- UTF-8 byte sequence of a Unicode code point. -/
def utf8Bytes (n : Nat) : List Nat :=
  if n < 0x80 then [n]
  else if n < 0x800 then [0xC0 + n / 64, 0x80 + n % 64]
  else if n < 0x10000 then [0xE0 + n / 4096, 0x80 + n / 64 % 64, 0x80 + n % 64]
  else [0xF0 + n / 262144, 0x80 + n / 4096 % 64, 0x80 + n / 64 % 64, 0x80 + n % 64]

/-- Percent-encoding of one byte, `%XX` with uppercase hex. -/
def pctByte (b : Nat) : List Char :=
  ['%', hexDigit (b / 16), hexDigit (b % 16)]

/-- Modelled from the spec: ECMAScript `encodeURIComponent` on one
character (the source calls the platform builtin at
`src/src/index.js:76`): unreserved characters pass through, all others
are percent-encoded as UTF-8 bytes. -/
def encChar (c : Char) : List Char :=
  if isUnreservedURI c then [c] else ((utf8Bytes c.toNat).map pctByte).flatten

/-- Modelled from the spec: ECMAScript `encodeURIComponent` on a
character list. -/
def encodeURIComponentL : List Char → List Char
  | [] => []
  | c :: cs => encChar c ++ encodeURIComponentL cs

/-- `encodeURIComponent` on strings. -/
def encodeURIComponent (s : String) : String :=
  ⟨encodeURIComponentL s.data⟩

/-- Modelled from the spec: first phase of `decodeURIComponent`
("URL-decoding"): each `%XX` becomes a byte (`Sum.inr`), other
characters pass through (`Sum.inl`); a malformed escape is an error. -/
def pctTokenize : List Char → Option (List (Sum Char Nat))
  | [] => some []
  | c :: rest =>
    if c = '%' then
      match rest with
      | h1 :: h2 :: rest2 =>
        match hexVal h1, hexVal h2 with
        | some d1, some d2 => (pctTokenize rest2).map (Sum.inr (16 * d1 + d2) :: ·)
        | _, _ => none
      | _ => none
    else (pctTokenize rest).map (Sum.inl c :: ·)

/-- Is `b` a UTF-8 continuation byte? -/
def contOk (b : Nat) : Bool := 0x80 ≤ b && b < 0xC0

/-- Modelled from the spec: second phase of `decodeURIComponent`:
decoded bytes are recombined as UTF-8 sequences (overlong and surrogate
rejection of the ECMAScript algorithm is not modelled; it is never
exercised by `encodeURIComponent` outputs). -/
def utf8Recompose : List (Sum Char Nat) → Option (List Char)
  | [] => some []
  | Sum.inl c :: rest => (utf8Recompose rest).map (c :: ·)
  | Sum.inr b :: rest =>
    if b < 0x80 then (utf8Recompose rest).map (Char.ofNat b :: ·)
    else
      match rest with
      | Sum.inr b2 :: rest2 =>
        if 0xC2 ≤ b ∧ b ≤ 0xDF then
          if contOk b2 then
            (utf8Recompose rest2).map (Char.ofNat ((b - 0xC0) * 64 + (b2 - 0x80)) :: ·)
          else none
        else
          match rest2 with
          | Sum.inr b3 :: rest3 =>
            if 0xE0 ≤ b ∧ b ≤ 0xEF then
              if contOk b2 && contOk b3 then
                (utf8Recompose rest3).map
                  (Char.ofNat ((b - 0xE0) * 4096 + (b2 - 0x80) * 64 + (b3 - 0x80)) :: ·)
              else none
            else
              match rest3 with
              | Sum.inr b4 :: rest4 =>
                if 0xF0 ≤ b ∧ b ≤ 0xF4 then
                  if contOk b2 && contOk b3 && contOk b4 then
                    (utf8Recompose rest4).map
                      (Char.ofNat ((b - 0xF0) * 262144 + (b2 - 0x80) * 4096 +
                        (b3 - 0x80) * 64 + (b4 - 0x80)) :: ·)
                  else none
                else none
              | _ => none
          | _ => none
      | _ => none

/-- Modelled from the spec: ECMAScript `decodeURIComponent` on a
character list (percent-decode, then UTF-8 recomposition). -/
def decodeURIComponentL (l : List Char) : Option (List Char) :=
  (pctTokenize l).bind utf8Recompose

def SCHOOL_NAME : String := "Grambling State University"

def CANVAS_DOMAIN : String := "grambling.instructure.com"

def ihSeg0 : String := "<!DOCTYPE html>\n<html lang=\"en\">\n<head>\n  <meta charset=\"UTF-8\">\n  <meta name=\"viewport\" content=\"width=device-width, initial-scale=1.0\">\n  <title>Canvas GPT - "

def ihSeg1 : String := "</title>\n  <link rel=\"stylesheet\" href=\"https://cdn.jsdelivr.net/npm/geist@1.2.0/dist/fonts/geist-sans/style.min.css\">\n  <style>\n    * \x7b box-sizing: border-box; margin: 0; padding: 0; \x7d\n    body \x7b\n      font-family: \"Geist Sans\", -apple-system, BlinkMacSystemFont, sans-serif;\n      background: #fff;\n      min-height: 100vh;\n      display: flex;\n      align-items: center;\n      justify-content: center;\n      padding: 20px;\n      color: #000;\n    \x7d\n    .container \x7b\n      max-width: 400px;\n      width: 100%;\n      text-align: center;\n    \x7d\n    h1 \x7b\n      font-size: 24px;\n      font-weight: 600;\n      margin-bottom: 8px;\n    \x7d\n    .school \x7b\n      color: #666;\n      margin-bottom: 40px;\n      font-size: 14px;\n    \x7d\n    p \x7b\n      color: #333;\n      line-height: 1.5;\n      margin-bottom: 16px;\n      font-size: 15px;\n    \x7d\n    .note \x7b\n      margin-top: 40px;\n      padding-top: 20px;\n      border-top: 1px solid #eee;\n      font-size: 13px;\n      color: #999;\n    \x7d\n    footer \x7b\n      position: fixed;\n      bottom: 20px;\n      left: 0;\n      right: 0;\n      text-align: center;\n      font-size: 13px;\n      color: #999;\n    \x7d\n    footer a \x7b\n      color: #666;\n      text-decoration: none;\n    \x7d\n    footer a:hover \x7b\n      text-decoration: underline;\n    \x7d\n  </style>\n</head>\n<body>\n  <div class=\"container\">\n    <h1>Canvas GPT</h1>\n    <p class=\"school\">"

def ihSeg2 : String := "</p>\n    <p>Connect ChatGPT to your Canvas account.</p>\n    <p>Open Canvas GPT in ChatGPT and click \"Sign in\" to get started.</p>\n    <p class=\"note\">Your token is sent directly to ChatGPT. No data is stored.</p>\n  </div>\n  <footer>Built with ❤️ by <a href=\"https://github.com/nintang/canvas-oauth\" target=\"_blank\">@nintang</a></footer>\n</body>\n</html>"

/-- Home page HTML of src/src/index.js (getHomePage). -/
def getHomePage : String :=
  ihSeg0 ++ SCHOOL_NAME ++ ihSeg1 ++ SCHOOL_NAME ++ ihSeg2

def iaSeg0 : String := "<!DOCTYPE html>\n<html lang=\"en\">\n<head>\n  <meta charset=\"UTF-8\">\n  <meta name=\"viewport\" content=\"width=device-width, initial-scale=1.0\">\n  <title>Connect to Canvas - "

def iaSeg1 : String := "</title>\n  <link rel=\"stylesheet\" href=\"https://cdn.jsdelivr.net/npm/geist@1.2.0/dist/fonts/geist-sans/style.min.css\">\n  <script src=\"https://unpkg.com/lucide@latest\"></script>\n  <style>\n    * \x7b box-sizing: border-box; margin: 0; padding: 0; \x7d\n    body \x7b\n      font-family: \"Geist Sans\", -apple-system, BlinkMacSystemFont, sans-serif;\n      background: #fafafa;\n      min-height: 100vh;\n      display: flex;\n      align-items: center;\n      justify-content: center;\n      padding: 20px;\n      color: #000;\n    \x7d\n    .container \x7b\n      background: #fff;\n      border: 1px solid #eaeaea;\n      padding: 40px;\n      max-width: 420px;\n      width: 100%;\n    \x7d\n    .header \x7b\n      text-align: center;\n      margin-bottom: 32px;\n    \x7d\n    .header svg \x7b\n      margin-bottom: 16px;\n      color: #000;\n    \x7d\n    h1 \x7b\n      font-size: 20px;\n      font-weight: 600;\n      margin-bottom: 4px;\n    \x7d\n    .school \x7b\n      color: #666;\n      font-size: 14px;\n    \x7d\n    label \x7b\n      display: block;\n      margin-bottom: 8px;\n      font-weight: 500;\n      font-size: 14px;\n      color: #333;\n    \x7d\n    input[type=\"password\"] \x7b\n      width: 100%;\n      padding: 12px;\n      border: 1px solid #eaeaea;\n      background: #fff;\n      color: #000;\n      font-size: 14px;\n      margin-bottom: 16px;\n      transition: border-color 0.15s;\n    \x7d\n    input[type=\"password\"]:focus \x7b\n      outline: none;\n      border-color: #000;\n    \x7d\n    input[type=\"password\"]::placeholder \x7b\n      color: #999;\n    \x7d\n    button \x7b\n      width: 100%;\n      padding: 12px;\n      background: #000;\n      color: #fff;\n      border: none;\n      font-size: 14px;\n      font-weight: 500;\n      cursor: pointer;\n      transition: background 0.15s;\n    \x7d\n    button:hover \x7b\n      background: #333;\n    \x7d\n    .divider \x7b\n      margin: 32px 0;\n      border-top: 1px solid #eaeaea;\n    \x7d\n    .help h3 \x7b\n      display: flex;\n      align-items: center;\n      gap: 8px;\n      margin-bottom: 16px;\n      font-size: 14px;\n      font-weight: 600;\n      color: #000;\n    \x7d\n    .help h3 svg \x7b\n      width: 16px;\n      height: 16px;\n    \x7d\n    .help ol \x7b\n      padding-left: 20px;\n      margin: 0;\n    \x7d\n    .help li \x7b\n      margin-bottom: 8px;\n      color: #666;\n      font-size: 13px;\n      line-height: 1.5;\n    \x7d\n    .help a \x7b\n      color: #000;\n      text-decoration: underline;\n      text-underline-offset: 2px;\n    \x7d\n    .help a:hover \x7b\n      color: #666;\n    \x7d\n    .security \x7b\n      margin-top: 24px;\n      display: flex;\n      align-items: center;\n      justify-content: center;\n      gap: 8px;\n      font-size: 12px;\n      color: #666;\n    \x7d\n    .security svg \x7b\n      width: 14px;\n      height: 14px;\n    \x7d\n    footer \x7b\n      position: fixed;\n      bottom: 20px;\n      left: 0;\n      right: 0;\n      text-align: center;\n      font-size: 13px;\n      color: #999;\n    \x7d\n    footer a \x7b\n      color: #666;\n      text-decoration: none;\n    \x7d\n    footer a:hover \x7b\n      text-decoration: underline;\n    \x7d\n  </style>\n</head>\n<body>\n  <div class=\"container\">\n    <div class=\"header\">\n      <i data-lucide=\"link\" width=\"32\" height=\"32\" stroke-width=\"1.5\"></i>\n      <h1>Connect to Canvas</h1>\n      <p class=\"school\">"

def iaSeg2 : String := "</p>\n    </div>\n\n    <form action=\"/callback\" method=\"POST\">\n      <input type=\"hidden\" name=\"redirect_uri\" value=\""

def iaSeg3 : String := "\">\n      <input type=\"hidden\" name=\"state\" value=\""

def iaSeg4 : String := "\">\n\n      <label for=\"token\">Access Token</label>\n      <input\n        type=\"password\"\n        id=\"token\"\n        name=\"token\"\n        placeholder=\"Paste your Canvas token\"\n        required\n        autocomplete=\"off\"\n      >\n\n      <button type=\"submit\">Continue</button>\n    </form>\n\n    <div class=\"divider\"></div>\n\n    <div class=\"help\">\n      <h3><i data-lucide=\"info\"></i> How to get your token</h3>\n      <ol>\n        <li>Go to <a href=\"https://"

def iaSeg5 : String := "\" target=\"_blank\">"

def iaSeg6 : String := "</a></li>\n        <li>Click Account in the left sidebar, then Settings</li>\n        <li>Scroll to Approved Integrations</li>\n        <li>Click + New Access Token</li>\n        <li>Enter purpose: ChatGPT</li>\n        <li>Click Generate Token and copy it</li>\n      </ol>\n    </div>\n\n    <div class=\"security\">\n      <i data-lucide=\"shield-check\"></i>\n      <span>Your token is sent directly to ChatGPT. No data is stored.</span>\n    </div>\n  </div>\n  <footer>Developed with ❤️ by <a href=\"https://github.com/nintang/canvas-oauth\" target=\"_blank\">@nintang</a></footer>\n  <script>lucide.createIcons();</script>\n</body>\n</html>"

/-- Authorization page HTML of src/src/index.js (getAuthPage): hidden fields pass through escapeHtml. -/
def getAuthPage (redirectUri : String) (state : Option String) : String :=
  iaSeg0 ++ SCHOOL_NAME ++ iaSeg1 ++ SCHOOL_NAME ++ iaSeg2 ++ escapeHtml (some redirectUri) ++ iaSeg3 ++ escapeHtml state ++ iaSeg4 ++ CANVAS_DOMAIN ++ iaSeg5 ++ CANVAS_DOMAIN ++ iaSeg6

def phSeg0 : String := "<!DOCTYPE html>\n<html lang=\"en\">\n<head>\n  <meta charset=\"UTF-8\">\n  <meta name=\"viewport\" content=\"width=device-width, initial-scale=1.0\">\n  <title>Canvas GPT - "

def phSeg1 : String := "</title>\n  <style>\n    * \x7b box-sizing: border-box; margin: 0; padding: 0; \x7d\n    body \x7b\n      font-family: -apple-system, BlinkMacSystemFont, \"Segoe UI\", Roboto, sans-serif;\n      background: linear-gradient(135deg, #1a1a2e 0%, #16213e 100%);\n      min-height: 100vh;\n      display: flex;\n      align-items: center;\n      justify-content: center;\n      padding: 20px;\n      color: #fff;\n    \x7d\n    .container \x7b\n      background: rgba(255,255,255,0.1);\n      backdrop-filter: blur(10px);\n      border-radius: 20px;\n      padding: 40px;\n      max-width: 500px;\n      width: 100%;\n      text-align: center;\n      border: 1px solid rgba(255,255,255,0.2);\n    \x7d\n    h1 \x7b margin-bottom: 10px; font-size: 28px; \x7d\n    .school \x7b color: #ffd700; margin-bottom: 20px; \x7d\n    p \x7b color: #ccc; line-height: 1.6; margin-bottom: 20px; \x7d\n    .info-box \x7b\n      background: rgba(255,255,255,0.1);\n      border-radius: 10px;\n      padding: 20px;\n      text-align: left;\n      margin-top: 20px;\n    \x7d\n    .info-box h3 \x7b margin-bottom: 10px; color: #ffd700; \x7d\n    .info-box ol \x7b padding-left: 20px; \x7d\n    .info-box li \x7b margin-bottom: 8px; color: #ddd; \x7d\n  </style>\n</head>\n<body>\n  <div class=\"container\">\n    <h1>🎓 Canvas GPT</h1>\n    <p class=\"school\">"

def phSeg2 : String := "</p>\n    <p>This service connects ChatGPT to your Canvas account.</p>\n    <p>To use it, open the Canvas GPT in ChatGPT and click \"Sign in\".</p>\n    \n    <div class=\"info-box\">\n      <h3>How it works:</h3>\n      <ol>\n        <li>Open Canvas GPT in ChatGPT</li>\n        <li>Click \"Sign in\" when prompted</li>\n        <li>Paste your Canvas access token</li>\n        <li>Start managing your courses!</li>\n      </ol>\n    </div>\n    \n    <div class=\"info-box\">\n      <h3>🔒 Privacy:</h3>\n      <p>Your token is sent directly to ChatGPT. This page does not store any data.</p>\n    </div>\n  </div>\n</body>\n</html>"

/-- Home page HTML of src/unnamed/part_000 (getHomePage). -/
def getHomePagePart : String :=
  phSeg0 ++ SCHOOL_NAME ++ phSeg1 ++ SCHOOL_NAME ++ phSeg2

def paSeg0 : String := "<!DOCTYPE html>\n<html lang=\"en\">\n<head>\n  <meta charset=\"UTF-8\">\n  <meta name=\"viewport\" content=\"width=device-width, initial-scale=1.0\">\n  <title>Connect to Canvas - "

def paSeg1 : String := "</title>\n  <style>\n    * \x7b box-sizing: border-box; margin: 0; padding: 0; \x7d\n    body \x7b\n      font-family: -apple-system, BlinkMacSystemFont, \"Segoe UI\", Roboto, sans-serif;\n      background: linear-gradient(135deg, #1a1a2e 0%, #16213e 100%);\n      min-height: 100vh;\n      display: flex;\n      align-items: center;\n      justify-content: center;\n      padding: 20px;\n      color: #fff;\n    \x7d\n    .container \x7b\n      background: rgba(255,255,255,0.1);\n      backdrop-filter: blur(10px);\n      border-radius: 20px;\n      padding: 40px;\n      max-width: 500px;\n      width: 100%;\n      border: 1px solid rgba(255,255,255,0.2);\n    \x7d\n    h1 \x7b text-align: center; margin-bottom: 10px; font-size: 24px; \x7d\n    .school \x7b text-align: center; color: #ffd700; margin-bottom: 30px; \x7d\n    label \x7b display: block; margin-bottom: 8px; font-weight: 500; \x7d\n    input[type=\"password\"] \x7b\n      width: 100%;\n      padding: 15px;\n      border: 2px solid rgba(255,255,255,0.3);\n      border-radius: 10px;\n      background: rgba(255,255,255,0.1);\n      color: #fff;\n      font-size: 16px;\n      margin-bottom: 20px;\n    \x7d\n    input[type=\"password\"]:focus \x7b\n      outline: none;\n      border-color: #ffd700;\n    \x7d\n    input[type=\"password\"]::placeholder \x7b color: #888; \x7d\n    button \x7b\n      width: 100%;\n      padding: 15px;\n      background: #ffd700;\n      color: #1a1a2e;\n      border: none;\n      border-radius: 10px;\n      font-size: 18px;\n      font-weight: 600;\n      cursor: pointer;\n      transition: transform 0.2s, box-shadow 0.2s;\n    \x7d\n    button:hover \x7b\n      transform: translateY(-2px);\n      box-shadow: 0 5px 20px rgba(255,215,0,0.4);\n    \x7d\n    .help \x7b\n      background: rgba(255,255,255,0.1);\n      border-radius: 10px;\n      padding: 20px;\n      margin-top: 25px;\n    \x7d\n    .help h3 \x7b margin-bottom: 12px; color: #ffd700; font-size: 16px; \x7d\n    .help ol \x7b padding-left: 20px; \x7d\n    .help li \x7b margin-bottom: 8px; color: #ccc; font-size: 14px; line-height: 1.5; \x7d\n    .help a \x7b color: #ffd700; \x7d\n    .security \x7b\n      margin-top: 20px;\n      padding: 15px;\n      background: rgba(0,255,0,0.1);\n      border-radius: 10px;\n      font-size: 13px;\n      color: #8f8;\n      text-align: center;\n    \x7d\n  </style>\n</head>\n<body>\n  <div class=\"container\">\n    <h1>🔐 Connect to Canvas</h1>\n    <p class=\"school\">"

def paSeg2 : String := "</p>\n    \n    <form action=\"/callback\" method=\"POST\">\n      <input type=\"hidden\" name=\"redirect_uri\" value=\""

def paSeg3 : String := "\">\n      <input type=\"hidden\" name=\"state\" value=\""

def paSeg4 : String := "\">\n      \n      <label for=\"token\">Canvas Access Token</label>\n      <input \n        type=\"password\" \n        id=\"token\" \n        name=\"token\" \n        placeholder=\"Paste your token here\" \n        required\n        autocomplete=\"off\"\n      >\n      \n      <button type=\"submit\">Connect to Canvas</button>\n    </form>\n    \n    <div class=\"help\">\n      <h3>📋 How to get your token:</h3>\n      <ol>\n        <li>Go to <a href=\"https://"

def paSeg5 : String := "\" target=\"_blank\">"

def paSeg6 : String := "</a></li>\n        <li>Click <strong>Account</strong> (left sidebar) → <strong>Settings</strong></li>\n        <li>Scroll to <strong>Approved Integrations</strong></li>\n        <li>Click <strong>+ New Access Token</strong></li>\n        <li>Enter purpose: <strong>ChatGPT</strong></li>\n        <li>Click <strong>Generate Token</strong></li>\n        <li>Copy the token and paste it above</li>\n      </ol>\n    </div>\n    \n    <div class=\"security\">\n      🔒 Your token is sent directly to ChatGPT. This page does not store any data.\n    </div>\n  </div>\n</body>\n</html>"

/-- Authorization page HTML of src/unnamed/part_000 (getAuthPage): hidden fields are interpolated raw, not escaped. -/
def getAuthPagePart (redirectUri : String) (state : Option String) : String :=
  paSeg0 ++ SCHOOL_NAME ++ paSeg1 ++ SCHOOL_NAME ++ paSeg2 ++ jsOr (some redirectUri) "" ++ paSeg3 ++ jsOr state "" ++ paSeg4 ++ CANVAS_DOMAIN ++ paSeg5 ++ CANVAS_DOMAIN ++ paSeg6

/-- The request fields the two dispatchers read.  `formData` is the result
of `await request.formData()` (`none` means the parse throws), `jsonFields`
the result of `await request.json()` restricted to string-valued fields
(`none` means the parse throws), `bodyText` the result of
`await request.text()`. -/
structure Request where
  method : String
  pathname : String
  search : String
  searchParams : List (String × String)
  contentTypeHeader : Option String
  authHeader : Option String
  formData : Option (List (String × String))
  jsonFields : Option (List (String × String))
  bodyText : String
deriving DecidableEq

/-- A response body: empty (`null`), plain text / HTML, or
`JSON.stringify` of an object with string fields. -/
inductive RBody where
  | empty : RBody
  | text : String → RBody
  | json : List (String × String) → RBody
deriving DecidableEq

/-- A response: status, body, and header list in construction order. -/
structure Response where
  status : Nat
  body : RBody
  headers : List (String × String)
deriving DecidableEq

/-- The request the proxy branch sends to the fixed upstream host. -/
structure UpstreamRequest where
  url : String
  method : String
  authorization : String
  contentType : String
  body : Option String
deriving DecidableEq

/-- What the upstream host answers: status, body text, and the
`Content-Type` header (if any). -/
structure UpstreamResponse where
  status : Nat
  body : String
  contentType : Option String
deriving DecidableEq

instance : DecidableEq (Except Unit Response) := fun a b =>
  match a, b with
  | .ok x, .ok y =>
    if h : x = y then isTrue (by rw [h]) else isFalse (fun hh => h (Except.ok.inj hh))
  | .error x, .error y => isTrue (by cases x; cases y; rfl)
  | .ok _, .error _ => isFalse (fun hh => Except.noConfusion hh)
  | .error _, .ok _ => isFalse (fun hh => Except.noConfusion hh)

/-- The CORS header object of both dispatchers. -/
def corsHeaders : List (String × String) :=
  [("Access-Control-Allow-Origin", "*"),
   ("Access-Control-Allow-Methods", "GET, POST, OPTIONS"),
   ("Access-Control-Allow-Headers", "Content-Type")]

/-- The `fetch` dispatcher of `src/src/index.js` (lines 28-155), with the
upstream Canvas host abstracted as `upstream`.  `Except.error ()` is an
uncaught exception escaping the handler. -/
def fetchIndex (upstream : UpstreamRequest → UpstreamResponse) (req : Request) :
    Except Unit Response :=
  if req.method = "OPTIONS" then
    .ok { status := 200, body := .empty, headers := corsHeaders }
  else if req.pathname = "/" ∨ req.pathname = "" then
    .ok { status := 200, body := .text getHomePage,
          headers := ("Content-Type", "text/html") :: corsHeaders }
  else if req.pathname = "/authorize" then
    let redirectUri := List.lookup "redirect_uri" req.searchParams
    let state := List.lookup "state" req.searchParams
    if falsyStr redirectUri then
      .ok { status := 400, body := .text "Missing redirect_uri", headers := [] }
    else
      .ok { status := 200, body := .text (getAuthPage (redirectUri.getD "") state),
            headers := ("Content-Type", "text/html") :: corsHeaders }
  else if req.pathname = "/callback" ∧ req.method = "POST" then
    match req.formData with
    | none => .error ()
    | some fd =>
      let token := List.lookup "token" fd
      let redirectUri := List.lookup "redirect_uri" fd
      let state := List.lookup "state" fd
      if falsyStr token || falsyStr redirectUri then
        .ok { status := 400, body := .text "Missing token or redirect_uri", headers := [] }
      else
        .ok { status := 302, body := .empty,
              headers := [("Location",
                redirectUri.getD "" ++ "?code=" ++ encodeURIComponent (token.getD "") ++
                  "&state=" ++ encodeURIComponent (jsOr state ""))] }
  else if req.pathname = "/token" ∧ req.method = "POST" then
    let contentType := jsOr req.contentTypeHeader ""
    if strIncludes contentType "application/x-www-form-urlencoded" then
      match req.formData with
      | none => .error ()
      | some fd =>
        let code := List.lookup "code" fd
        if falsyStr code then
          .ok { status := 400, body := .json [("error", "Missing code")],
                headers := ("Content-Type", "application/json") :: corsHeaders }
        else
          .ok { status := 200,
                body := .json [("access_token", code.getD ""), ("token_type", "Bearer"),
                               ("scope", "read write")],
                headers := ("Content-Type", "application/json") :: corsHeaders }
    else if strIncludes contentType "application/json" then
      match req.jsonFields with
      | none => .error ()
      | some j =>
        let code := List.lookup "code" j
        if falsyStr code then
          .ok { status := 400, body := .json [("error", "Missing code")],
                headers := ("Content-Type", "application/json") :: corsHeaders }
        else
          .ok { status := 200,
                body := .json [("access_token", code.getD ""), ("token_type", "Bearer"),
                               ("scope", "read write")],
                headers := ("Content-Type", "application/json") :: corsHeaders }
    else
      match req.formData with
      | none =>
        .ok { status := 400, body := .json [("error", "Invalid request format")],
              headers := ("Content-Type", "application/json") :: corsHeaders }
      | some fd =>
        let code := List.lookup "code" fd
        if falsyStr code then
          .ok { status := 400, body := .json [("error", "Missing code")],
                headers := ("Content-Type", "application/json") :: corsHeaders }
        else
          .ok { status := 200,
                body := .json [("access_token", code.getD ""), ("token_type", "Bearer"),
                               ("scope", "read write")],
                headers := ("Content-Type", "application/json") :: corsHeaders }
  else if pathStartsWith req.pathname "/api/v1/" then
    if falsyStr req.authHeader then
      .ok { status := 401, body := .json [("error", "Missing Authorization header")],
            headers := ("Content-Type", "application/json") :: corsHeaders }
    else
      let canvasResponse := upstream
        { url := "https://" ++ CANVAS_DOMAIN ++ req.pathname ++ req.search,
          method := req.method,
          authorization := req.authHeader.getD "",
          contentType := jsOr req.contentTypeHeader "application/json",
          body := if req.method ≠ "GET" ∧ req.method ≠ "HEAD" then some req.bodyText else none }
      .ok { status := canvasResponse.status, body := .text canvasResponse.body,
            headers := ("Content-Type", jsOr canvasResponse.contentType "application/json") ::
              corsHeaders }
  else
    .ok { status := 404, body := .text "Not found", headers := corsHeaders }

/-- The `fetch` dispatcher of `src/unnamed/part_000` (lines 19-117): same
shape, but the authorization page embeds the hidden fields unescaped and
there is no `/api/v1/` proxy branch. -/
def fetchPart (req : Request) : Except Unit Response :=
  if req.method = "OPTIONS" then
    .ok { status := 200, body := .empty, headers := corsHeaders }
  else if req.pathname = "/" ∨ req.pathname = "" then
    .ok { status := 200, body := .text getHomePagePart,
          headers := ("Content-Type", "text/html") :: corsHeaders }
  else if req.pathname = "/authorize" then
    let redirectUri := List.lookup "redirect_uri" req.searchParams
    let state := List.lookup "state" req.searchParams
    if falsyStr redirectUri then
      .ok { status := 400, body := .text "Missing redirect_uri", headers := [] }
    else
      .ok { status := 200, body := .text (getAuthPagePart (redirectUri.getD "") state),
            headers := ("Content-Type", "text/html") :: corsHeaders }
  else if req.pathname = "/callback" ∧ req.method = "POST" then
    match req.formData with
    | none => .error ()
    | some fd =>
      let token := List.lookup "token" fd
      let redirectUri := List.lookup "redirect_uri" fd
      let state := List.lookup "state" fd
      if falsyStr token || falsyStr redirectUri then
        .ok { status := 400, body := .text "Missing token or redirect_uri", headers := [] }
      else
        .ok { status := 302, body := .empty,
              headers := [("Location",
                redirectUri.getD "" ++ "?code=" ++ encodeURIComponent (token.getD "") ++
                  "&state=" ++ encodeURIComponent (jsOr state ""))] }
  else if req.pathname = "/token" ∧ req.method = "POST" then
    let contentType := jsOr req.contentTypeHeader ""
    if strIncludes contentType "application/x-www-form-urlencoded" then
      match req.formData with
      | none => .error ()
      | some fd =>
        let code := List.lookup "code" fd
        if falsyStr code then
          .ok { status := 400, body := .json [("error", "Missing code")],
                headers := ("Content-Type", "application/json") :: corsHeaders }
        else
          .ok { status := 200,
                body := .json [("access_token", code.getD ""), ("token_type", "Bearer"),
                               ("scope", "read write")],
                headers := ("Content-Type", "application/json") :: corsHeaders }
    else if strIncludes contentType "application/json" then
      match req.jsonFields with
      | none => .error ()
      | some j =>
        let code := List.lookup "code" j
        if falsyStr code then
          .ok { status := 400, body := .json [("error", "Missing code")],
                headers := ("Content-Type", "application/json") :: corsHeaders }
        else
          .ok { status := 200,
                body := .json [("access_token", code.getD ""), ("token_type", "Bearer"),
                               ("scope", "read write")],
                headers := ("Content-Type", "application/json") :: corsHeaders }
    else
      match req.formData with
      | none =>
        .ok { status := 400, body := .json [("error", "Invalid request format")],
              headers := ("Content-Type", "application/json") :: corsHeaders }
      | some fd =>
        let code := List.lookup "code" fd
        if falsyStr code then
          .ok { status := 400, body := .json [("error", "Missing code")],
                headers := ("Content-Type", "application/json") :: corsHeaders }
        else
          .ok { status := 200,
                body := .json [("access_token", code.getD ""), ("token_type", "Bearer"),
                               ("scope", "read write")],
                headers := ("Content-Type", "application/json") :: corsHeaders }
  else
    .ok { status := 404, body := .text "Not found", headers := corsHeaders }
theorem replaceChar_append (c : Char) (r xs ys : List Char) :
    replaceChar c r (xs ++ ys) = replaceChar c r xs ++ replaceChar c r ys := by
  induction xs with
  | nil => rfl
  | cons x xs ih => simp [replaceChar, ih]

theorem escapeHtmlL_append (xs ys : List Char) :
    escapeHtmlL (xs ++ ys) = escapeHtmlL xs ++ escapeHtmlL ys := by
  simp [escapeHtmlL, replaceChar_append]

theorem escapeHtmlL_cons (c : Char) (cs : List Char) :
    escapeHtmlL (c :: cs) = escapeHtmlL [c] ++ escapeHtmlL cs :=
  escapeHtmlL_append [c] cs

theorem escapeHtmlL_other (c : Char) (h1 : c ≠ '&') (h2 : c ≠ '"') (h3 : c ≠ '<')
    (h4 : c ≠ '>') : escapeHtmlL [c] = [c] := by
  simp [escapeHtmlL, replaceChar, h1, h2, h3, h4]

theorem htmlDecodeL_cons_ne (c : Char) (h : c ≠ '&') (l : List Char) :
    htmlDecodeL (c :: l) = c :: htmlDecodeL l := by
  rw [htmlDecodeL.eq_def]
  simp [h]

theorem htmlDecodeL_escapeHtmlL (cs : List Char) : htmlDecodeL (escapeHtmlL cs) = cs := by
  induction cs with
  | nil => rfl
  | cons c cs ih =>
    rw [escapeHtmlL_cons]
    by_cases h1 : c = '&'
    · subst h1
      have he : escapeHtmlL ['&'] = '&' :: 'a' :: 'm' :: 'p' :: ';' :: [] := by decide
      rw [he]
      show htmlDecodeL ('&' :: 'a' :: 'm' :: 'p' :: ';' :: escapeHtmlL cs) = '&' :: cs
      rw [show htmlDecodeL ('&' :: 'a' :: 'm' :: 'p' :: ';' :: escapeHtmlL cs)
            = '&' :: htmlDecodeL (escapeHtmlL cs) from rfl, ih]
    · by_cases h2 : c = '"'
      · subst h2
        have he : escapeHtmlL ['"'] = '&' :: 'q' :: 'u' :: 'o' :: 't' :: ';' :: [] := by decide
        rw [he]
        show htmlDecodeL ('&' :: 'q' :: 'u' :: 'o' :: 't' :: ';' :: escapeHtmlL cs) = '"' :: cs
        rw [show htmlDecodeL ('&' :: 'q' :: 'u' :: 'o' :: 't' :: ';' :: escapeHtmlL cs)
              = '"' :: htmlDecodeL (escapeHtmlL cs) from rfl, ih]
      · by_cases h3 : c = '<'
        · subst h3
          have he : escapeHtmlL ['<'] = '&' :: 'l' :: 't' :: ';' :: [] := by decide
          rw [he]
          show htmlDecodeL ('&' :: 'l' :: 't' :: ';' :: escapeHtmlL cs) = '<' :: cs
          rw [show htmlDecodeL ('&' :: 'l' :: 't' :: ';' :: escapeHtmlL cs)
                = '<' :: htmlDecodeL (escapeHtmlL cs) from rfl, ih]
        · by_cases h4 : c = '>'
          · subst h4
            have he : escapeHtmlL ['>'] = '&' :: 'g' :: 't' :: ';' :: [] := by decide
            rw [he]
            show htmlDecodeL ('&' :: 'g' :: 't' :: ';' :: escapeHtmlL cs) = '>' :: cs
            rw [show htmlDecodeL ('&' :: 'g' :: 't' :: ';' :: escapeHtmlL cs)
                  = '>' :: htmlDecodeL (escapeHtmlL cs) from rfl, ih]
          · rw [escapeHtmlL_other c h1 h2 h3 h4]
            show htmlDecodeL (c :: escapeHtmlL cs) = c :: cs
            rw [htmlDecodeL_cons_ne c h1, ih]

theorem htmlDecodeL_escapeHtml (s : String) :
    htmlDecodeL (escapeHtml (some s)).data = s.data := by
  by_cases hs : s = ""
  · subst hs; rfl
  · simp only [escapeHtml, hs, if_false]
    exact htmlDecodeL_escapeHtmlL s.data

theorem htmlDecodeL_escapeHtml_opt (s : Option String) :
    htmlDecodeL (escapeHtml s).data = (s.getD "").data := by
  match s with
  | none => rfl
  | some s => exact htmlDecodeL_escapeHtml s

theorem char_toNat_lt (c : Char) : c.toNat < 1114112 := by
  rcases c.valid with h | ⟨_, h⟩
  · exact Nat.lt_trans h (by norm_num)
  · exact h

theorem hexVal_hexDigit : ∀ d, d < 16 → hexVal (hexDigit d) = some d := by decide

/-- Token string produced by `encodeURIComponent` for one character. -/
def uriTok (c : Char) : List (Sum Char Nat) :=
  if isUnreservedURI c then [Sum.inl c] else (utf8Bytes c.toNat).map Sum.inr

/-- Token string produced by `encodeURIComponent` for a character list. -/
def encTokens : List Char → List (Sum Char Nat)
  | [] => []
  | c :: cs => uriTok c ++ encTokens cs

theorem utf8Bytes_lt (n : Nat) (hn : n < 1114112) : ∀ b ∈ utf8Bytes n, b < 256 := by
  intro b hb
  unfold utf8Bytes at hb
  split at hb
  · simp at hb; omega
  · split at hb
    · simp at hb; rcases hb with h | h <;> omega
    · split at hb
      · simp at hb; rcases hb with h | h | h <;> omega
      · simp at hb; rcases hb with h | h | h | h <;> omega

theorem pctTokenize_pctByte (b : Nat) (hb : b < 256) (l : List Char) :
    pctTokenize (pctByte b ++ l) = (pctTokenize l).map (Sum.inr b :: ·) := by
  have h1 : hexVal (hexDigit (b / 16)) = some (b / 16) := hexVal_hexDigit _ (by omega)
  have h2 : hexVal (hexDigit (b % 16)) = some (b % 16) := hexVal_hexDigit _ (by omega)
  have hb' : 16 * (b / 16) + b % 16 = b := by omega
  simp [pctByte, pctTokenize, h1, h2, hb']

theorem pctTokenize_pctBytes (bs : List Nat) (hbs : ∀ b ∈ bs, b < 256) (l : List Char) :
    pctTokenize ((bs.map pctByte).flatten ++ l) =
      (pctTokenize l).map (bs.map Sum.inr ++ ·) := by
  induction bs with
  | nil => simp
  | cons b bs ih =>
    have hb : b < 256 := hbs b (by simp)
    have ih' := ih (fun x hx => hbs x (by simp [hx]))
    simp only [List.map_cons, List.flatten_cons, List.append_assoc]
    rw [pctTokenize_pctByte b hb, ih']
    cases pctTokenize l <;> simp

theorem isUnreservedURI_ne_pct (c : Char) (h : isUnreservedURI c = true) : c ≠ '%' := by
  intro e; subst e; exact absurd h (by decide)

theorem pctTokenize_enc (cs : List Char) :
    pctTokenize (encodeURIComponentL cs) = some (encTokens cs) := by
  induction cs with
  | nil => rfl
  | cons c cs ih =>
    rw [encodeURIComponentL, encTokens]
    by_cases h : isUnreservedURI c
    · have hne := isUnreservedURI_ne_pct c h
      simp only [encChar, h, if_true, uriTok, List.singleton_append, List.cons_append,
        List.nil_append]
      rw [pctTokenize.eq_def]
      simp [hne, ih]
    · rw [Bool.not_eq_true] at h
      simp only [encChar, h, Bool.false_eq_true, if_false, uriTok]
      rw [pctTokenize_pctBytes _ (utf8Bytes_lt _ (char_toNat_lt c)), ih]
      rfl

theorem utf8Recompose_inl (c : Char) (ts : List (Sum Char Nat)) :
    utf8Recompose (Sum.inl c :: ts) = (utf8Recompose ts).map (c :: ·) := rfl

theorem utf8Recompose_one (b : Nat) (ts : List (Sum Char Nat)) (h : b < 0x80) :
    utf8Recompose (Sum.inr b :: ts) = (utf8Recompose ts).map (Char.ofNat b :: ·) := by
  rw [utf8Recompose.eq_def]
  simp [h]

theorem utf8Recompose_two (b1 b2 : Nat) (ts : List (Sum Char Nat))
    (h1 : ¬ b1 < 0x80) (h2 : 0xC2 ≤ b1 ∧ b1 ≤ 0xDF) (h3 : contOk b2 = true) :
    utf8Recompose (Sum.inr b1 :: Sum.inr b2 :: ts) =
      (utf8Recompose ts).map (Char.ofNat ((b1 - 0xC0) * 64 + (b2 - 0x80)) :: ·) := by
  rw [utf8Recompose.eq_def]
  simp [h1, h2, h3]

theorem utf8Recompose_three (b1 b2 b3 : Nat) (ts : List (Sum Char Nat))
    (h1 : ¬ b1 < 0x80) (h2 : ¬(0xC2 ≤ b1 ∧ b1 ≤ 0xDF)) (h3 : 0xE0 ≤ b1 ∧ b1 ≤ 0xEF)
    (h4 : contOk b2 = true) (h5 : contOk b3 = true) :
    utf8Recompose (Sum.inr b1 :: Sum.inr b2 :: Sum.inr b3 :: ts) =
      (utf8Recompose ts).map
        (Char.ofNat ((b1 - 0xE0) * 4096 + (b2 - 0x80) * 64 + (b3 - 0x80)) :: ·) := by
  rw [utf8Recompose.eq_def]
  simp [h1, h2, h3, h4, h5]

theorem utf8Recompose_four (b1 b2 b3 b4 : Nat) (ts : List (Sum Char Nat))
    (h1 : ¬ b1 < 0x80) (h2 : ¬(0xC2 ≤ b1 ∧ b1 ≤ 0xDF)) (h3 : ¬(0xE0 ≤ b1 ∧ b1 ≤ 0xEF))
    (h4 : 0xF0 ≤ b1 ∧ b1 ≤ 0xF4) (h5 : contOk b2 = true) (h6 : contOk b3 = true)
    (h7 : contOk b4 = true) :
    utf8Recompose (Sum.inr b1 :: Sum.inr b2 :: Sum.inr b3 :: Sum.inr b4 :: ts) =
      (utf8Recompose ts).map
        (Char.ofNat ((b1 - 0xF0) * 262144 + (b2 - 0x80) * 4096 + (b3 - 0x80) * 64 +
          (b4 - 0x80)) :: ·) := by
  rw [utf8Recompose.eq_def]
  simp [h1, h2, h3, h4, h5, h6, h7]

theorem utf8Recompose_uriTok (c : Char) (ts : List (Sum Char Nat)) (cs : List Char)
    (ih : utf8Recompose ts = some cs) :
    utf8Recompose (uriTok c ++ ts) = some (c :: cs) := by
  by_cases h : isUnreservedURI c
  · simp [uriTok, h, utf8Recompose_inl, ih]
  · rw [Bool.not_eq_true] at h
    simp only [uriTok, h, Bool.false_eq_true, if_false]
    have hlt := char_toNat_lt c
    by_cases h1 : c.toNat < 0x80
    · rw [show utf8Bytes c.toNat = [c.toNat] from by simp [utf8Bytes, h1]]
      simp only [List.map_cons, List.map_nil, List.cons_append, List.nil_append]
      rw [utf8Recompose_one _ _ h1, ih, Char.ofNat_toNat]
      rfl
    · by_cases h2 : c.toNat < 0x800
      · rw [show utf8Bytes c.toNat = [0xC0 + c.toNat / 64, 0x80 + c.toNat % 64] from by
          simp [utf8Bytes, h1, h2]]
        simp only [List.map_cons, List.map_nil, List.cons_append, List.nil_append]
        rw [utf8Recompose_two _ _ _ (by omega) (by constructor <;> omega)
          (by simp [contOk]; omega), ih]
        rw [show (0xC0 + c.toNat / 64 - 0xC0) * 64 + (0x80 + c.toNat % 64 - 0x80)
            = c.toNat from by omega, Char.ofNat_toNat]
        rfl
      · by_cases h3 : c.toNat < 0x10000
        · rw [show utf8Bytes c.toNat
              = [0xE0 + c.toNat / 4096, 0x80 + c.toNat / 64 % 64, 0x80 + c.toNat % 64] from by
            simp [utf8Bytes, h1, h2, h3]]
          simp only [List.map_cons, List.map_nil, List.cons_append, List.nil_append]
          rw [utf8Recompose_three _ _ _ _ (by omega) (by omega) (by constructor <;> omega)
            (by simp [contOk]; omega) (by simp [contOk]; omega), ih]
          rw [show (0xE0 + c.toNat / 4096 - 0xE0) * 4096 +
              (0x80 + c.toNat / 64 % 64 - 0x80) * 64 + (0x80 + c.toNat % 64 - 0x80)
              = c.toNat from by omega, Char.ofNat_toNat]
          rfl
        · rw [show utf8Bytes c.toNat
              = [0xF0 + c.toNat / 262144, 0x80 + c.toNat / 4096 % 64,
                 0x80 + c.toNat / 64 % 64, 0x80 + c.toNat % 64] from by
            simp [utf8Bytes, h1, h2, h3]]
          simp only [List.map_cons, List.map_nil, List.cons_append, List.nil_append]
          rw [utf8Recompose_four _ _ _ _ _ (by omega) (by omega) (by omega)
            (by constructor <;> omega) (by simp [contOk]; omega) (by simp [contOk]; omega)
            (by simp [contOk]; omega), ih]
          rw [show (0xF0 + c.toNat / 262144 - 0xF0) * 262144 +
              (0x80 + c.toNat / 4096 % 64 - 0x80) * 4096 +
              (0x80 + c.toNat / 64 % 64 - 0x80) * 64 + (0x80 + c.toNat % 64 - 0x80)
              = c.toNat from by omega, Char.ofNat_toNat]
          rfl

theorem utf8Recompose_encTokens (cs : List Char) :
    utf8Recompose (encTokens cs) = some cs := by
  induction cs with
  | nil => rfl
  | cons c cs ih => exact utf8Recompose_uriTok c _ _ ih

/-- URL-encoding round-trips: `decodeURIComponent` is a left inverse of
`encodeURIComponent`. -/
theorem decode_encode (cs : List Char) :
    decodeURIComponentL (encodeURIComponentL cs) = some cs := by
  rw [decodeURIComponentL, pctTokenize_enc, Option.some_bind]
  exact utf8Recompose_encTokens cs

theorem hexDigit_ne_amp : ∀ d, d < 16 → hexDigit d ≠ '&' := by decide

theorem isUnreservedURI_ne_amp (c : Char) (h : isUnreservedURI c = true) : c ≠ '&' := by
  intro e; subst e; exact absurd h (by decide)

theorem mem_encChar_ne_amp (c x : Char) (hx : x ∈ encChar c) : x ≠ '&' := by
  unfold encChar at hx
  by_cases h : isUnreservedURI c
  · simp [h] at hx; subst hx; exact isUnreservedURI_ne_amp _ h
  · rw [Bool.not_eq_true] at h
    simp only [h, Bool.false_eq_true, if_false] at hx
    rw [List.mem_flatten] at hx
    obtain ⟨l, hl, hxl⟩ := hx
    rw [List.mem_map] at hl
    obtain ⟨b, hb, rfl⟩ := hl
    have hb256 : b < 256 := utf8Bytes_lt _ (char_toNat_lt c) b hb
    simp [pctByte] at hxl
    rcases hxl with rfl | rfl | rfl
    · decide
    · exact hexDigit_ne_amp _ (by omega)
    · exact hexDigit_ne_amp _ (by omega)

theorem mem_enc_ne_amp (cs : List Char) (x : Char) (hx : x ∈ encodeURIComponentL cs) :
    x ≠ '&' := by
  induction cs with
  | nil => simp [encodeURIComponentL] at hx
  | cons c cs ih =>
    rw [encodeURIComponentL] at hx
    rcases List.mem_append.mp hx with h | h
    · exact mem_encChar_ne_amp c x h
    · exact ih h

theorem takeWhile_append_stop (p : Char → Bool) (xs : List Char) (y : Char)
    (ys : List Char) (h1 : ∀ x ∈ xs, p x = true) (h2 : p y = false) :
    List.takeWhile p (xs ++ y :: ys) = xs := by
  induction xs with
  | nil => simp [List.takeWhile_cons, h2]
  | cons x xs ih =>
    have hrec := ih (fun z hz => h1 z (by simp [hz]))
    simp [List.takeWhile_cons, h1 x (by simp), hrec]

/-- A fixed upstream used to instantiate theorems at concrete inputs. -/
def upstream0 : UpstreamRequest → UpstreamResponse :=
  fun _ => { status := 200, body := "up", contentType := some "text/plain" }

/-- A baseline request; concrete requests below override fields. -/
def baseReq : Request :=
  { method := "GET", pathname := "/", search := "", searchParams := [],
    contentTypeHeader := none, authHeader := none, formData := none,
    jsonFields := none, bodyText := "" }

def tokenFormReq : Request :=
  { baseReq with
    method := "POST", pathname := "/token",
    contentTypeHeader := some "application/x-www-form-urlencoded",
    formData := some [("code", "abc123")] }

def tokenJsonReq : Request :=
  { baseReq with
    method := "POST", pathname := "/token",
    contentTypeHeader := some "application/json",
    jsonFields := some [("code", "abc123")] }

def tokenFallbackReq : Request :=
  { baseReq with
    method := "POST", pathname := "/token",
    contentTypeHeader := some "text/plain",
    formData := some [("code", "abc123")] }

def tokenEmptyCodeReq : Request :=
  { baseReq with
    method := "POST", pathname := "/token",
    contentTypeHeader := some "application/x-www-form-urlencoded",
    formData := some [("code", "")] }

/-- The 200 response of a successful `/token` exchange for credential `t`. -/
def tokenOkResp (t : String) : Response :=
  { status := 200,
    body := .json [("access_token", t), ("token_type", "Bearer"), ("scope", "read write")],
    headers := ("Content-Type", "application/json") :: corsHeaders }

/-- The 400 response of `/token` when the parsed code is falsy. -/
def tokenMissingResp : Response :=
  { status := 400, body := .json [("error", "Missing code")],
    headers := ("Content-Type", "application/json") :: corsHeaders }

/-- C1 (amended: nonempty credential): a POST `/token` carrying a nonempty
`code=t` — as a form body, a JSON body, or an unrecognized content type
whose fallback form parse succeeds — returns 200 with JSON body exactly
`access_token = t, token_type = "Bearer", scope = "read write"`, the
access token being the parsed credential itself, untransformed. -/
theorem c1_token_exchange_verbatim (t : String) (u : UpstreamRequest → UpstreamResponse)
    (req : Request) (ht : t ≠ "") (hm : req.method = "POST")
    (hp : req.pathname = "/token") :
    (∀ fd, strIncludes (jsOr req.contentTypeHeader "") "application/x-www-form-urlencoded"
        = true →
      req.formData = some fd → List.lookup "code" fd = some t →
      fetchIndex u req = .ok (tokenOkResp t)) ∧
    (∀ j, strIncludes (jsOr req.contentTypeHeader "") "application/x-www-form-urlencoded"
        = false →
      strIncludes (jsOr req.contentTypeHeader "") "application/json" = true →
      req.jsonFields = some j → List.lookup "code" j = some t →
      fetchIndex u req = .ok (tokenOkResp t)) ∧
    (∀ fd, strIncludes (jsOr req.contentTypeHeader "") "application/x-www-form-urlencoded"
        = false →
      strIncludes (jsOr req.contentTypeHeader "") "application/json" = false →
      req.formData = some fd → List.lookup "code" fd = some t →
      fetchIndex u req = .ok (tokenOkResp t)) := by
  refine ⟨fun fd hct hfd hcode => ?_, fun j hct1 hct2 hj hcode => ?_,
    fun fd hct1 hct2 hfd hcode => ?_⟩ <;>
    simp [fetchIndex, tokenOkResp, hm, hp, falsyStr, ht, *]

theorem c1_witness :
    fetchIndex upstream0 tokenFormReq = .ok (tokenOkResp "abc123") ∧
    fetchIndex upstream0 tokenJsonReq = .ok (tokenOkResp "abc123") ∧
    fetchIndex upstream0 tokenFallbackReq = .ok (tokenOkResp "abc123") :=
  ⟨(c1_token_exchange_verbatim "abc123" upstream0 tokenFormReq (by decide) rfl rfl).1
      _ (by decide) rfl rfl,
   (c1_token_exchange_verbatim "abc123" upstream0 tokenJsonReq (by decide) rfl rfl).2.1
      _ (by decide) (by decide) rfl rfl,
   (c1_token_exchange_verbatim "abc123" upstream0 tokenFallbackReq (by decide) rfl rfl).2.2
      _ (by decide) (by decide) rfl rfl⟩

/-- C1 counterexample: for the credential `t = ""` the claim fails — the
exchange answers 400 `Missing code`, not 200 with `access_token = ""`. -/
theorem c1_empty_code_counterexample :
    fetchIndex upstream0 tokenEmptyCodeReq = .ok tokenMissingResp ∧
    fetchIndex upstream0 tokenEmptyCodeReq ≠ .ok (tokenOkResp "") := by
  constructor
  · rfl
  · decide

def authEmptyReq : Request :=
  { baseReq with
    method := "GET", pathname := "/authorize",
    searchParams := [("redirect_uri", "")] }

def authMissingReq : Request :=
  { baseReq with
    method := "GET", pathname := "/authorize" }

def cbEmptyTokenReq : Request :=
  { baseReq with
    method := "POST", pathname := "/callback",
    formData := some [("token", ""), ("redirect_uri", "https://chat.example/cb")] }

def cbMissingTokenReq : Request :=
  { baseReq with
    method := "POST", pathname := "/callback",
    formData := some [("redirect_uri", "https://chat.example/cb")] }

def tokenBadFallbackReq : Request :=
  { baseReq with
    method := "POST", pathname := "/token",
    contentTypeHeader := some "text/plain", formData := none }

def tokenNoCodeReq : Request :=
  { baseReq with
    method := "POST", pathname := "/token",
    contentTypeHeader := some "application/x-www-form-urlencoded",
    formData := some [] }

/-- The 400 response of `/authorize` without a usable `redirect_uri`. -/
def authMissingResp : Response :=
  { status := 400, body := .text "Missing redirect_uri", headers := [] }

/-- The 400 response of `/callback` without usable `token`/`redirect_uri`. -/
def cbMissingResp : Response :=
  { status := 400, body := .text "Missing token or redirect_uri", headers := [] }

/-- The 400 response of `/token` when the fallback form parse fails. -/
def tokenBadFormatResp : Response :=
  { status := 400, body := .json [("error", "Invalid request format")],
    headers := ("Content-Type", "application/json") :: corsHeaders }

/-- C4: each required-input failure returns the specified client error:
`/authorize` without `redirect_uri` gives 400; POST `/callback` missing
`token` or `redirect_uri` gives 400; POST `/token` with no code value
(on any of the three parse paths) gives 400 `Missing code`; POST `/token`
with an unrecognized content type whose fallback form parse fails gives
400 `Invalid request format`. -/
theorem c4_missing_input_errors (u : UpstreamRequest → UpstreamResponse) (req : Request) :
    (req.method = "GET" → req.pathname = "/authorize" →
      List.lookup "redirect_uri" req.searchParams = none →
      fetchIndex u req = .ok authMissingResp) ∧
    (∀ fd, req.method = "POST" → req.pathname = "/callback" → req.formData = some fd →
      (List.lookup "token" fd = none ∨ List.lookup "redirect_uri" fd = none) →
      fetchIndex u req = .ok cbMissingResp) ∧
    (∀ fd, req.method = "POST" → req.pathname = "/token" →
      strIncludes (jsOr req.contentTypeHeader "") "application/x-www-form-urlencoded"
        = true →
      req.formData = some fd → List.lookup "code" fd = none →
      fetchIndex u req = .ok tokenMissingResp) ∧
    (∀ j, req.method = "POST" → req.pathname = "/token" →
      strIncludes (jsOr req.contentTypeHeader "") "application/x-www-form-urlencoded"
        = false →
      strIncludes (jsOr req.contentTypeHeader "") "application/json" = true →
      req.jsonFields = some j → List.lookup "code" j = none →
      fetchIndex u req = .ok tokenMissingResp) ∧
    (∀ fd, req.method = "POST" → req.pathname = "/token" →
      strIncludes (jsOr req.contentTypeHeader "") "application/x-www-form-urlencoded"
        = false →
      strIncludes (jsOr req.contentTypeHeader "") "application/json" = false →
      req.formData = some fd → List.lookup "code" fd = none →
      fetchIndex u req = .ok tokenMissingResp) ∧
    (req.method = "POST" → req.pathname = "/token" →
      strIncludes (jsOr req.contentTypeHeader "") "application/x-www-form-urlencoded"
        = false →
      strIncludes (jsOr req.contentTypeHeader "") "application/json" = false →
      req.formData = none →
      fetchIndex u req = .ok tokenBadFormatResp) := by
  refine ⟨fun hm hp hr => ?_, fun fd hm hp hfd hor => ?_, fun fd hm hp hct hfd hc => ?_,
    fun j hm hp hct1 hct2 hj hc => ?_, fun fd hm hp hct1 hct2 hfd hc => ?_,
    fun hm hp hct1 hct2 hfd => ?_⟩
  · simp [fetchIndex, authMissingResp, hm, hp, hr, falsyStr]
  · rcases hor with h | h <;>
      simp [fetchIndex, cbMissingResp, hm, hp, hfd, h, falsyStr]
  · simp [fetchIndex, tokenMissingResp, hm, hp, hct, hfd, hc, falsyStr]
  · simp [fetchIndex, tokenMissingResp, hm, hp, hct1, hct2, hj, hc, falsyStr]
  · simp [fetchIndex, tokenMissingResp, hm, hp, hct1, hct2, hfd, hc, falsyStr]
  · simp [fetchIndex, tokenBadFormatResp, hm, hp, hct1, hct2, hfd]

theorem c4_witness :
    fetchIndex upstream0 authMissingReq = .ok authMissingResp ∧
    fetchIndex upstream0 cbMissingTokenReq = .ok cbMissingResp ∧
    fetchIndex upstream0 tokenNoCodeReq = .ok tokenMissingResp ∧
    fetchIndex upstream0 tokenBadFallbackReq = .ok tokenBadFormatResp :=
  ⟨(c4_missing_input_errors upstream0 authMissingReq).1 rfl rfl (by decide),
   (c4_missing_input_errors upstream0 cbMissingTokenReq).2.1 _ rfl rfl rfl
      (Or.inl (by decide)),
   (c4_missing_input_errors upstream0 tokenNoCodeReq).2.2.1 _ rfl rfl (by decide) rfl
      (by decide),
   (c4_missing_input_errors upstream0 tokenBadFallbackReq).2.2.2.2.2 rfl rfl
      (by decide) (by decide) rfl⟩

/-- C8: a required value present but equal to the empty string is treated
exactly as if absent, because each presence check uses JavaScript
falsiness: `/authorize` with `redirect_uri=` gives the same 400,
`/callback` with an empty `token` or `redirect_uri` gives the same 400,
and `/token` with `code=""` (on any parse path) gives 400 `Missing code`. -/
theorem c8_empty_treated_as_absent (u : UpstreamRequest → UpstreamResponse)
    (req : Request) :
    (req.method = "GET" → req.pathname = "/authorize" →
      List.lookup "redirect_uri" req.searchParams = some "" →
      fetchIndex u req = .ok authMissingResp) ∧
    (∀ fd, req.method = "POST" → req.pathname = "/callback" → req.formData = some fd →
      (List.lookup "token" fd = some "" ∨ List.lookup "redirect_uri" fd = some "") →
      fetchIndex u req = .ok cbMissingResp) ∧
    (∀ fd, req.method = "POST" → req.pathname = "/token" →
      strIncludes (jsOr req.contentTypeHeader "") "application/x-www-form-urlencoded"
        = true →
      req.formData = some fd → List.lookup "code" fd = some "" →
      fetchIndex u req = .ok tokenMissingResp) ∧
    (∀ j, req.method = "POST" → req.pathname = "/token" →
      strIncludes (jsOr req.contentTypeHeader "") "application/x-www-form-urlencoded"
        = false →
      strIncludes (jsOr req.contentTypeHeader "") "application/json" = true →
      req.jsonFields = some j → List.lookup "code" j = some "" →
      fetchIndex u req = .ok tokenMissingResp) ∧
    (∀ fd, req.method = "POST" → req.pathname = "/token" →
      strIncludes (jsOr req.contentTypeHeader "") "application/x-www-form-urlencoded"
        = false →
      strIncludes (jsOr req.contentTypeHeader "") "application/json" = false →
      req.formData = some fd → List.lookup "code" fd = some "" →
      fetchIndex u req = .ok tokenMissingResp) := by
  refine ⟨fun hm hp hr => ?_, fun fd hm hp hfd hor => ?_, fun fd hm hp hct hfd hc => ?_,
    fun j hm hp hct1 hct2 hj hc => ?_, fun fd hm hp hct1 hct2 hfd hc => ?_⟩
  · simp [fetchIndex, authMissingResp, hm, hp, hr, falsyStr]
  · rcases hor with h | h <;>
      simp [fetchIndex, cbMissingResp, hm, hp, hfd, h, falsyStr]
  · simp [fetchIndex, tokenMissingResp, hm, hp, hct, hfd, hc, falsyStr]
  · simp [fetchIndex, tokenMissingResp, hm, hp, hct1, hct2, hj, hc, falsyStr]
  · simp [fetchIndex, tokenMissingResp, hm, hp, hct1, hct2, hfd, hc, falsyStr]

theorem c8_witness :
    fetchIndex upstream0 authEmptyReq = .ok authMissingResp ∧
    fetchIndex upstream0 cbEmptyTokenReq = .ok cbMissingResp ∧
    fetchIndex upstream0 tokenEmptyCodeReq = .ok tokenMissingResp :=
  ⟨(c8_empty_treated_as_absent upstream0 authEmptyReq).1 rfl rfl (by decide),
   (c8_empty_treated_as_absent upstream0 cbEmptyTokenReq).2.1 _ rfl rfl rfl
      (Or.inl (by decide)),
   (c8_empty_treated_as_absent upstream0 tokenEmptyCodeReq).2.2.1 _ rfl rfl (by decide)
      rfl (by decide)⟩

def tokenBadJsonReq : Request :=
  { baseReq with
    method := "POST", pathname := "/token",
    contentTypeHeader := some "application/json", jsonFields := none }

def tokenBadFormReq : Request :=
  { baseReq with
    method := "POST", pathname := "/token",
    contentTypeHeader := some "application/x-www-form-urlencoded", formData := none }

/-- C9: the `Invalid request format` guard covers only the fallback
branch of POST `/token`; when the content type names JSON (or
form-urlencoded) but that parse throws, the exception propagates out of
the handler uncaught (`Except.error ()`), so the handler is not total. -/
theorem c9_parse_failure_uncaught (u : UpstreamRequest → UpstreamResponse)
    (req : Request) (hm : req.method = "POST") (hp : req.pathname = "/token") :
    (strIncludes (jsOr req.contentTypeHeader "") "application/x-www-form-urlencoded"
        = false →
      strIncludes (jsOr req.contentTypeHeader "") "application/json" = true →
      req.jsonFields = none →
      fetchIndex u req = .error ()) ∧
    (strIncludes (jsOr req.contentTypeHeader "") "application/x-www-form-urlencoded"
        = true →
      req.formData = none →
      fetchIndex u req = .error ()) := by
  refine ⟨fun hct1 hct2 hj => ?_, fun hct hfd => ?_⟩
  · simp [fetchIndex, hm, hp, hct1, hct2, hj]
  · simp [fetchIndex, hm, hp, hct, hfd]

theorem c9_witness :
    fetchIndex upstream0 tokenBadJsonReq = .error () ∧
    fetchIndex upstream0 tokenBadFormReq = .error () :=
  ⟨(c9_parse_failure_uncaught upstream0 tokenBadJsonReq rfl rfl).1 (by decide) (by decide)
      rfl,
   (c9_parse_failure_uncaught upstream0 tokenBadFormReq rfl rfl).2 (by decide) rfl⟩

def cbReq : Request :=
  { baseReq with
    method := "POST", pathname := "/callback",
    formData := some [("token", "abc 123&x"), ("redirect_uri", "https://chat.example/cb"),
      ("state", "xyz")] }

/-- The 302 redirect issued by `/callback` for credential `t`, redirect
target `r` and optional state `s` (built by `Response.redirect`: only a
`Location` header). -/
def cbRedirectResp (t r : String) (s : Option String) : Response :=
  { status := 302, body := .empty,
    headers := [("Location",
      r ++ "?code=" ++ encodeURIComponent t ++ "&state=" ++ encodeURIComponent (jsOr s ""))] }

/-- C2 (amended: nonempty credential and redirect target): POST
`/callback` with form fields `token=t` and `redirect_uri=r` returns a 302
redirect to `r?code=<t URL-encoded>&state=<s URL-encoded, or "" when
absent>`; the `code` query parameter (the segment up to the next `&`) is
exactly the encoding of `t`, and URL-decoding it yields `t` again. -/
theorem c2_callback_roundtrip (u : UpstreamRequest → UpstreamResponse) (req : Request)
    (fd : List (String × String)) (t r : String) (s : Option String)
    (hm : req.method = "POST") (hp : req.pathname = "/callback")
    (hfd : req.formData = some fd) (htok : List.lookup "token" fd = some t)
    (hru : List.lookup "redirect_uri" fd = some r) (hst : List.lookup "state" fd = s)
    (ht : t ≠ "") (hr : r ≠ "") :
    fetchIndex u req = .ok (cbRedirectResp t r s) ∧
    List.takeWhile (fun c => c != '&')
      (encodeURIComponentL t.data ++ ("&state=" ++ encodeURIComponent (jsOr s "")).data)
      = encodeURIComponentL t.data ∧
    decodeURIComponentL (encodeURIComponentL t.data) = some t.data := by
  refine ⟨?_, ?_, decode_encode t.data⟩
  · simp [fetchIndex, cbRedirectResp, hm, hp, hfd, htok, hru, hst, falsyStr, ht, hr]
  · have hhead : ("&state=" ++ encodeURIComponent (jsOr s "")).data
        = '&' :: ("state=" ++ encodeURIComponent (jsOr s "")).data := rfl
    rw [hhead]
    refine takeWhile_append_stop _ _ _ _ (fun x hx => ?_) (by decide)
    simp only [bne_iff_ne, ne_eq, decide_eq_true_eq]
    exact mem_enc_ne_amp _ x hx

def cbConcreteResp : Response :=
  { status := 302, body := .empty,
    headers := [("Location", "https://chat.example/cb?code=abc%20123%26x&state=xyz")] }

theorem c2_witness :
    fetchIndex upstream0 cbReq = .ok cbConcreteResp ∧
    List.takeWhile (fun c => c != '&')
      ("abc%20123%26x".data ++ "&state=xyz".data) = "abc%20123%26x".data ∧
    decodeURIComponentL "abc%20123%26x".data = some "abc 123&x".data :=
  c2_callback_roundtrip upstream0 cbReq _ "abc 123&x" "https://chat.example/cb"
    (some "xyz") rfl rfl rfl (by decide) (by decide) (by decide) (by decide) (by decide)

/-- C2 counterexample: for the credential `t = ""` (with a valid redirect
target) the claim fails — `/callback` answers 400, not a 302 redirect. -/
theorem c2_empty_token_counterexample :
    fetchIndex upstream0 cbEmptyTokenReq = .ok cbMissingResp ∧
    fetchIndex upstream0 cbEmptyTokenReq
      ≠ .ok (cbRedirectResp "" "https://chat.example/cb" none) := by
  constructor
  · rfl
  · decide

def authReq : Request :=
  { baseReq with
    method := "GET", pathname := "/authorize",
    searchParams := [("redirect_uri", "https://chat.example/cb"), ("state", "xyz")] }

/-- The 200 login-page response of `/authorize`. -/
def authPageResp (r : String) (s : Option String) : Response :=
  { status := 200, body := .text (getAuthPage r s),
    headers := ("Content-Type", "text/html") :: corsHeaders }

/-- C3 (amended: nonempty redirect target): GET `/authorize` with a
nonempty `redirect_uri` and optional `state` returns the login form,
which embeds both values in the two hidden input fields through
`escapeHtml`; HTML-decoding the escaped values yields the original
inputs exactly (the absent state is embedded as `""`). -/
theorem c3_authorize_escaping_roundtrip (u : UpstreamRequest → UpstreamResponse)
    (req : Request) (r : String) (s : Option String)
    (hm : req.method = "GET") (hp : req.pathname = "/authorize")
    (hru : List.lookup "redirect_uri" req.searchParams = some r)
    (hst : List.lookup "state" req.searchParams = s) (hr : r ≠ "") :
    fetchIndex u req = .ok (authPageResp r s) ∧
    getAuthPage r s = iaSeg0 ++ SCHOOL_NAME ++ iaSeg1 ++ SCHOOL_NAME ++ iaSeg2 ++
      escapeHtml (some r) ++ iaSeg3 ++ escapeHtml s ++ iaSeg4 ++ CANVAS_DOMAIN ++
      iaSeg5 ++ CANVAS_DOMAIN ++ iaSeg6 ∧
    htmlDecodeL (escapeHtml (some r)).data = r.data ∧
    htmlDecodeL (escapeHtml s).data = (s.getD "").data := by
  refine ⟨?_, rfl, htmlDecodeL_escapeHtml r, htmlDecodeL_escapeHtml_opt s⟩
  simp [fetchIndex, authPageResp, hm, hp, hru, hst, falsyStr, hr]

theorem c3_witness :
    fetchIndex upstream0 authReq
      = .ok (authPageResp "https://chat.example/cb" (some "xyz")) ∧
    getAuthPage "https://chat.example/cb" (some "xyz") = iaSeg0 ++ SCHOOL_NAME ++ iaSeg1 ++
      SCHOOL_NAME ++ iaSeg2 ++ escapeHtml (some "https://chat.example/cb") ++ iaSeg3 ++
      escapeHtml (some "xyz") ++ iaSeg4 ++ CANVAS_DOMAIN ++ iaSeg5 ++ CANVAS_DOMAIN ++
      iaSeg6 ∧
    htmlDecodeL (escapeHtml (some "https://chat.example/cb")).data
      = "https://chat.example/cb".data ∧
    htmlDecodeL (escapeHtml (some "xyz")).data = "xyz".data :=
  c3_authorize_escaping_roundtrip upstream0 authReq "https://chat.example/cb"
    (some "xyz") rfl rfl (by decide) (by decide) (by decide)

/-- C3 counterexample: for `redirect_uri = ""` the claim fails — no login
form is returned at all; the response is the plain-text 400. -/
theorem c3_empty_redirect_counterexample :
    fetchIndex upstream0 authEmptyReq = .ok authMissingResp ∧
    fetchIndex upstream0 authEmptyReq ≠ .ok (authPageResp "" none) := by
  constructor
  · rfl
  · decide

/-- The 401 response of the proxy branch without a usable `Authorization`. -/
def proxy401Resp : Response :=
  { status := 401, body := .json [("error", "Missing Authorization header")],
    headers := ("Content-Type", "application/json") :: corsHeaders }

/-- The upstream request the proxy branch builds from `req` and the
authorization header value `a`. -/
def proxyReq (req : Request) (a : String) : UpstreamRequest :=
  { url := "https://" ++ CANVAS_DOMAIN ++ req.pathname ++ req.search,
    method := req.method, authorization := a,
    contentType := jsOr req.contentTypeHeader "application/json",
    body := if req.method ≠ "GET" ∧ req.method ≠ "HEAD" then some req.bodyText else none }

/-- How the proxy branch relays an upstream response. -/
def relayResp (r : UpstreamResponse) : Response :=
  { status := r.status, body := .text r.body,
    headers := ("Content-Type", jsOr r.contentType "application/json") :: corsHeaders }

def apiNoAuthReq : Request :=
  { baseReq with pathname := "/api/v1/courses" }

def apiReq : Request :=
  { baseReq with
    pathname := "/api/v1/courses", search := "?page=2",
    authHeader := some "Bearer tok" }

def apiOptionsReq : Request :=
  { baseReq with method := "OPTIONS", pathname := "/api/v1/courses" }

/-- The empty 200 response of the `OPTIONS` preflight short-circuit. -/
def optionsResp : Response :=
  { status := 200, body := .empty, headers := corsHeaders }

/-- What the proxy relays for `upstream0`'s fixed answer. -/
def apiRelayedResp : Response :=
  { status := 200, body := .text "up",
    headers := ("Content-Type", "text/plain") :: corsHeaders }

/-- C5 (amended): for every non-`OPTIONS` request whose path begins with
`/api/v1/`: an absent or empty `Authorization` header yields 401 with a
JSON error body; a nonempty one is forwarded to the fixed upstream host
with method, path, query string and body text (for non-GET/HEAD) intact
and only the `Authorization`/`Content-Type` headers set, and the
upstream status, body and content type are relayed back. An `OPTIONS`
request short-circuits before the proxy branch (see counterexample). -/
theorem c5_proxy_forwarding (u : UpstreamRequest → UpstreamResponse) (req : Request)
    (hm : req.method ≠ "OPTIONS")
    (hstart : pathStartsWith req.pathname "/api/v1/" = true) :
    (falsyStr req.authHeader = true → fetchIndex u req = .ok proxy401Resp) ∧
    (∀ a, req.authHeader = some a → a ≠ "" →
      fetchIndex u req = .ok (relayResp (u (proxyReq req a)))) := by
  have h1 : req.pathname ≠ "/" := fun h => absurd (h ▸ hstart) (by decide)
  have h2 : req.pathname ≠ "" := fun h => absurd (h ▸ hstart) (by decide)
  have h3 : req.pathname ≠ "/authorize" := fun h => absurd (h ▸ hstart) (by decide)
  have h4 : req.pathname ≠ "/callback" := fun h => absurd (h ▸ hstart) (by decide)
  have h5 : req.pathname ≠ "/token" := fun h => absurd (h ▸ hstart) (by decide)
  refine ⟨fun hauth => ?_, fun a ha hane => ?_⟩
  · simp [fetchIndex, proxy401Resp, hm, h1, h2, h3, h4, h5, hstart, hauth]
  · simp [fetchIndex, relayResp, proxyReq, hm, h1, h2, h3, h4, h5, hstart, ha,
      falsyStr, hane]

/-- The request `upstream0` receives for `apiReq`: method, path and query
preserved, only the two headers set, no body for GET. -/
def apiUpstreamReq : UpstreamRequest :=
  { url := "https://grambling.instructure.com/api/v1/courses?page=2",
    method := "GET", authorization := "Bearer tok", contentType := "application/json",
    body := none }

theorem c5_witness :
    fetchIndex upstream0 apiNoAuthReq = .ok proxy401Resp ∧
    fetchIndex upstream0 apiReq = .ok (relayResp (upstream0 (proxyReq apiReq "Bearer tok"))) ∧
    relayResp (upstream0 (proxyReq apiReq "Bearer tok")) = apiRelayedResp ∧
    proxyReq apiReq "Bearer tok" = apiUpstreamReq :=
  ⟨(c5_proxy_forwarding upstream0 apiNoAuthReq (by decide) (by decide)).1 rfl,
   (c5_proxy_forwarding upstream0 apiReq (by decide) (by decide)).2 _ rfl (by decide),
   by decide, by decide⟩

/-- C5 counterexample: an `OPTIONS` request under `/api/v1/` with no
`Authorization` header is answered 200 by the preflight short-circuit,
not 401 as the claim states for every request on that path. -/
theorem c5_options_counterexample :
    fetchIndex upstream0 apiOptionsReq = .ok optionsResp ∧
    fetchIndex upstream0 apiOptionsReq ≠ .ok proxy401Resp := by
  constructor
  · rfl
  · decide

/-- The home-page response of `src/src/index.js`. -/
def homeResp : Response :=
  { status := 200, body := .text getHomePage,
    headers := ("Content-Type", "text/html") :: corsHeaders }

/-- The 404 fallback response (it does carry the CORS headers). -/
def notFoundResp : Response :=
  { status := 404, body := .text "Not found", headers := corsHeaders }

/-- A response carries the three permissive CORS headers. -/
@[reducible] def hasCors (r : Response) : Prop :=
  ("Access-Control-Allow-Origin", "*") ∈ r.headers ∧
  ("Access-Control-Allow-Methods", "GET, POST, OPTIONS") ∈ r.headers ∧
  ("Access-Control-Allow-Headers", "Content-Type") ∈ r.headers

def optionsAnyReq : Request :=
  { baseReq with method := "OPTIONS", pathname := "/whatever" }

/-- C6 (amended): an `OPTIONS` request on any path short-circuits to an
empty 200 bearing exactly the three CORS headers; the HTML pages, all
JSON responses and the relayed proxy responses carry the CORS headers;
the 404 fallback also carries them; but the plain-text 400s of
`/authorize` and `/callback` do not, and neither does the 302 redirect
from `/callback`, which is built by `Response.redirect` with only a
`Location` header. -/
theorem c6_cors_coverage (u : UpstreamRequest → UpstreamResponse) (req : Request) :
    (req.method = "OPTIONS" → fetchIndex u req = .ok optionsResp) ∧
    optionsResp.headers = corsHeaders ∧
    (req.method ≠ "OPTIONS" → req.pathname = "/" → fetchIndex u req = .ok homeResp) ∧
    hasCors homeResp ∧
    (∀ fd t r s, req.method = "POST" → req.pathname = "/callback" →
      req.formData = some fd → List.lookup "token" fd = some t →
      List.lookup "redirect_uri" fd = some r → List.lookup "state" fd = s →
      t ≠ "" → r ≠ "" → fetchIndex u req = .ok (cbRedirectResp t r s)) ∧
    (∀ t r s, ¬ hasCors (cbRedirectResp t r s)) ∧
    (req.method ≠ "OPTIONS" → req.pathname ≠ "/" → req.pathname ≠ "" →
      req.pathname ≠ "/authorize" → req.pathname ≠ "/callback" → req.pathname ≠ "/token" →
      pathStartsWith req.pathname "/api/v1/" = false →
      fetchIndex u req = .ok notFoundResp) ∧
    hasCors notFoundResp ∧
    ¬ hasCors authMissingResp ∧
    ¬ hasCors cbMissingResp ∧
    (∀ t, hasCors (tokenOkResp t)) ∧
    hasCors tokenMissingResp ∧
    hasCors tokenBadFormatResp ∧
    hasCors proxy401Resp ∧
    (∀ r, hasCors (relayResp r)) ∧
    (∀ r s, hasCors (authPageResp r s)) := by
  refine ⟨fun hm => ?_, rfl, fun hm hp => ?_, by decide,
    fun fd t r s hm hp hfd htok hru hst ht hr => ?_,
    fun t r s h => ?_, fun hm h1 h2 h3 h4 h5 h6 => ?_, by decide, by decide, by decide,
    fun t => ?_, by decide, by decide, by decide, fun r => ?_, fun r s => ?_⟩
  · simp [fetchIndex, optionsResp, hm]
  · simp [fetchIndex, homeResp, hm, hp]
  · simp [fetchIndex, cbRedirectResp, hm, hp, hfd, htok, hru, hst, falsyStr, ht, hr]
  · simp [hasCors, cbRedirectResp] at h
  · simp [fetchIndex, notFoundResp, hm, h1, h2, h3, h4, h5, h6]
  · simp [hasCors, tokenOkResp, corsHeaders]
  · simp [hasCors, relayResp, corsHeaders]
  · simp [hasCors, authPageResp, corsHeaders]

theorem c6_witness :
    fetchIndex upstream0 optionsAnyReq = .ok optionsResp ∧
    fetchIndex upstream0 (baseReq) = .ok homeResp ∧
    fetchIndex upstream0 cbReq
      = .ok (cbRedirectResp "abc 123&x" "https://chat.example/cb" (some "xyz")) ∧
    ¬ hasCors (cbRedirectResp "abc 123&x" "https://chat.example/cb" (some "xyz")) :=
  ⟨(c6_cors_coverage upstream0 optionsAnyReq).1 rfl,
   (c6_cors_coverage upstream0 baseReq).2.2.1 (by decide) rfl,
   (c6_cors_coverage upstream0 cbReq).2.2.2.2.1 _ "abc 123&x" "https://chat.example/cb"
      (some "xyz") rfl rfl rfl (by decide) (by decide) (by decide) (by decide) (by decide),
   (c6_cors_coverage upstream0 cbReq).2.2.2.2.2.1 "abc 123&x" "https://chat.example/cb"
      (some "xyz")⟩

/-- C6 counterexample: the 302 redirect from `/callback` does not carry
the CORS headers (its only header is `Location`), contrary to the claim;
the 404 fallback, also contrary to the claim, does carry them. -/
theorem c6_redirect_counterexample :
    fetchIndex upstream0 cbReq = .ok cbConcreteResp ∧
    ¬ hasCors cbConcreteResp ∧
    hasCors notFoundResp := by
  refine ⟨rfl, by decide, by decide⟩

def getCallbackReq : Request :=
  { baseReq with pathname := "/callback" }

def postRootReq : Request :=
  { baseReq with method := "POST" }

/-- C7 (amended): a request matching none of the dispatcher's guards
(`OPTIONS` anywhere, any method on `/` or `/authorize`, POST on
`/callback` or `/token`, any method under `/api/v1/`) falls through to
the 404 plain-text response; but the `/` and `/authorize` branches match
any method, so a non-GET request there does not 404 (see
counterexample). -/
theorem c7_unmatched_404 (u : UpstreamRequest → UpstreamResponse) (req : Request)
    (hm : req.method ≠ "OPTIONS") (h1 : req.pathname ≠ "/") (h2 : req.pathname ≠ "")
    (h3 : req.pathname ≠ "/authorize")
    (h4 : ¬(req.pathname = "/callback" ∧ req.method = "POST"))
    (h5 : ¬(req.pathname = "/token" ∧ req.method = "POST"))
    (h6 : pathStartsWith req.pathname "/api/v1/" = false) :
    fetchIndex u req = .ok notFoundResp := by
  simp [fetchIndex, notFoundResp, hm, h1, h2, h3, h4, h5, h6]

theorem c7_witness :
    fetchIndex upstream0 getCallbackReq = .ok notFoundResp :=
  c7_unmatched_404 upstream0 getCallbackReq (by decide) (by decide) (by decide)
    (by decide) (by decide) (by decide) (by decide)

/-- C7 counterexample: a POST to `/` is answered by the home page with
status 200, not 404 — the `/` branch matches any method. -/
theorem c7_post_root_counterexample :
    fetchIndex upstream0 postRootReq = .ok homeResp ∧
    fetchIndex upstream0 postRootReq ≠ .ok notFoundResp := by
  constructor
  · rfl
  · decide

set_option maxRecDepth 100000

/-- C10 (amended): the two shipped dispatchers are not extensionally
equal.  They agree on `OPTIONS`, on `/callback` and on `/token` for
every request, but their `/` home pages differ as HTML text (so they do
not agree on `/`), `part_000` interpolates the `/authorize` hidden
fields raw (unescaped), and `part_000` has no `/api/v1/` branch, so such
requests fall through to its 404. -/
theorem c10_variants_differ (u : UpstreamRequest → UpstreamResponse) (req : Request) :
    (req.method = "OPTIONS" → fetchIndex u req = fetchPart req) ∧
    (req.pathname = "/callback" → fetchIndex u req = fetchPart req) ∧
    (req.pathname = "/token" → fetchIndex u req = fetchPart req) ∧
    getHomePage ≠ getHomePagePart ∧
    (∀ r s, getAuthPagePart r s = paSeg0 ++ SCHOOL_NAME ++ paSeg1 ++ SCHOOL_NAME ++
      paSeg2 ++ jsOr (some r) "" ++ paSeg3 ++ jsOr s "" ++ paSeg4 ++ CANVAS_DOMAIN ++
      paSeg5 ++ CANVAS_DOMAIN ++ paSeg6) ∧
    hasSubList (getAuthPagePart "\"><zzz>" none).data "\"><zzz>".data = true ∧
    escapeHtml (some "\"><zzz>") ≠ jsOr (some "\"><zzz>") "" ∧
    (req.method ≠ "OPTIONS" → pathStartsWith req.pathname "/api/v1/" = true →
      fetchPart req = .ok notFoundResp) := by
  have hcb : pathStartsWith "/callback" "/api/v1/" = false := by decide
  have htk : pathStartsWith "/token" "/api/v1/" = false := by decide
  refine ⟨fun hm => ?_, fun hp => ?_, fun hp => ?_, by decide, fun r s => rfl, by decide,
    by decide, fun hm hstart => ?_⟩
  · simp [fetchIndex, fetchPart, hm]
  · by_cases hm : req.method = "OPTIONS"
    · simp [fetchIndex, fetchPart, hm]
    · by_cases hpost : req.method = "POST"
      · simp [fetchIndex, fetchPart, hm, hp, hpost]
      · simp [fetchIndex, fetchPart, hm, hp, hpost, hcb]
  · by_cases hm : req.method = "OPTIONS"
    · simp [fetchIndex, fetchPart, hm]
    · by_cases hpost : req.method = "POST"
      · simp [fetchIndex, fetchPart, hm, hp, hpost]
      · simp [fetchIndex, fetchPart, hm, hp, hpost, htk]
  · have h1 : req.pathname ≠ "/" := fun h => absurd (h ▸ hstart) (by decide)
    have h2 : req.pathname ≠ "" := fun h => absurd (h ▸ hstart) (by decide)
    have h3 : req.pathname ≠ "/authorize" := fun h => absurd (h ▸ hstart) (by decide)
    have h4 : req.pathname ≠ "/callback" := fun h => absurd (h ▸ hstart) (by decide)
    have h5 : req.pathname ≠ "/token" := fun h => absurd (h ▸ hstart) (by decide)
    simp [fetchPart, notFoundResp, hm, h1, h2, h3, h4, h5]

theorem c10_witness :
    fetchIndex upstream0 optionsAnyReq = fetchPart optionsAnyReq ∧
    fetchIndex upstream0 cbReq = fetchPart cbReq ∧
    fetchIndex upstream0 tokenFormReq = fetchPart tokenFormReq ∧
    fetchPart apiReq = .ok notFoundResp :=
  ⟨(c10_variants_differ upstream0 optionsAnyReq).1 rfl,
   (c10_variants_differ upstream0 cbReq).2.1 rfl,
   (c10_variants_differ upstream0 tokenFormReq).2.2.1 rfl,
   (c10_variants_differ upstream0 apiReq).2.2.2.2.2.2.2 (by decide) (by decide)⟩

/-- C10 counterexample: the two dispatchers do not agree on `/` — the
claim's agreement list is wrong there, because the two home pages are
different HTML documents. -/
theorem c10_home_counterexample :
    fetchIndex upstream0 baseReq ≠ fetchPart baseReq := by
  decide
